import Mathlib

/-!
Shallow embedding of the TAMS prediction engine
(src/tams-model/predictor.py, class TAMSPredictor) in Lean 4.

Conventions of the embedding:
* Python dictionaries that play the role of anomaly records become
  association lists `List (String × Value)`; `Value` models the dynamic
  values that can sit in a record field (strings, numbers, Python None),
  and `pyStr` models Python `str(...)` on them.
* Python substring containment `needle in hay` becomes `strContainsB`.
* NumPy feature matrices become `List (List Nat)` (row-major); raw model
  predictions are rational-valued (`Rat`), since the estimator returns
  floating point numbers that the engine rounds and clamps.
* Exceptions are modelled explicitly: the estimator call returns
  `Except String RawPred`, and each `try/except` block of the source that can
  be entered by an environmental failure carries a Boolean error flag
  (`eD` for the `_prepare_features` body, `eS` for
  `_prepare_features_with_saved_components`, `eF` for
  `_prepare_features_fallback`); a `true` flag means the corresponding
  block raised and its `except` handler runs.
* `hash` is the process-wide Python string hash; every statement is
  quantified over it.
-/

/-- A dynamic Python value stored in an anomaly-record field. -/
inductive Value where
  | vStr (s : String)
  | vInt (n : Int)
  | vNone
deriving DecidableEq, Repr

/-- Python `str(...)` on a record-field value. -/
def pyStr : Value → String
  | .vStr s => s
  | .vInt n => toString n
  | .vNone => "None"

/-- An anomaly record: a Python dict from field names to values. -/
abbrev Record := List (String × Value)

/-- Python `.lower()`; the source only ever lowercases ASCII text, on which
Char.toLower agrees with Python. (String.toLower itself is defined by
well-founded recursion, which the kernel cannot evaluate, so we lower the
underlying character list directly.) -/
def lowerString (s : String) : String := ⟨s.data.map Char.toLower⟩

/-- `anomaly_data.get(k, d)` followed by `str(...)`, as in
`_fallback_prediction` (predictor.py lines 320, 346). -/
def pyGetStr (r : Record) (k : String) (d : String) : String :=
  match r.find? (fun p => p.1 == k) with
  | some p => pyStr p.2
  | none => d

/-- Whether `needle` is a prefix of `hay` (over character lists). -/
def charPre : List Char → List Char → Bool
  | [], _ => true
  | _ :: _, [] => false
  | a :: as, b :: bs => a == b && charPre as bs

/-- Whether `needle` occurs contiguously in `hay` (over character lists). -/
def charSub : List Char → List Char → Bool
  | needle, [] => needle.isEmpty
  | needle, c :: rest => charPre needle (c :: rest) || charSub needle rest

/-- Python `needle in hay` on strings. -/
def strContainsB (hay needle : String) : Bool :=
  charSub needle.toList hay.toList

/-- The result dict built by the engine
(keys `ai_fiabilite_integrite_score`, `ai_disponibilite_score`,
`ai_process_safety_score`, `ai_criticality_level`). -/
structure ScoreResult where
  ai_fiabilite_integrite_score : Int
  ai_disponibilite_score : Int
  ai_process_safety_score : Int
  ai_criticality_level : Int
deriving DecidableEq, Repr

/-- predictor.py line 328. -/
def critical_keywords : List String :=
  ["failure", "broken", "leak", "fire", "explosion", "pressure", "overheat"]

/-- predictor.py line 329. -/
def medium_keywords : List String :=
  ["wear", "drift", "irregularities", "drop", "issue"]

/-- predictor.py line 330. -/
def low_keywords : List String :=
  ["calibration", "maintenance", "check"]

/-- The keyword cascade of `_fallback_prediction`
(predictor.py lines 322-343): base scores (3,3,3), overwritten by the
first keyword tier that matches the lower-cased description. -/
def baseScores (description : String) : Int × Int × Int :=
  if critical_keywords.any (fun k => strContainsB description k) then (4, 4, 5)
  else if medium_keywords.any (fun k => strContainsB description k) then (3, 3, 3)
  else if low_keywords.any (fun k => strContainsB description k) then (2, 2, 2)
  else (3, 3, 3)

/-- The system-type adjustment of `_fallback_prediction`
(predictor.py lines 345-350): the triple is (fiabilite, disponibilite,
process_safety). -/
def adjustScores (system : String) (s : Int × Int × Int) : Int × Int × Int :=
  if strContainsB system "electrical" then (s.1, s.2.1, min 5 (s.2.2 + 1))
  else if strContainsB system "hydraulic" || strContainsB system "pneumatic" then
    (s.1, min 5 (s.2.1 + 1), s.2.2)
  else s

/-- `TAMSPredictor._fallback_prediction` (predictor.py lines 318-359). -/
def fallback_prediction (anomaly_data : Record) : ScoreResult :=
  let description := lowerString (pyGetStr anomaly_data "description" "")
  let system := lowerString (pyGetStr anomaly_data "systeme" "")
  let s := adjustScores system (baseScores description)
  ⟨s.1, s.2.1, s.2.2, s.1 + s.2.1 + s.2.2⟩

/-- The example record of the specification:
identifier EQ001, system Hydraulic, description about a pressure drop. -/
def exRecord : Record :=
  [("num_equipement", .vStr "EQ001"),
   ("systeme", .vStr "Hydraulic"),
   ("description", .vStr "Pressure drop detected in main valve")]

/-- A raw prediction returned by the estimator: a 1-D or a 2-D numeric
NumPy array (`prediction.shape` has length 1 or 2).  NumPy 2-D arrays are
rectangular; `shape[1]` is read off the first row. -/
inductive RawPred where
  | d1 (v : List Rat)
  | d2 (rows : List (List Rat))

/-- Python `round(...)` on a real number: round half to even. -/
def pyRound (q : Rat) : Int :=
  let f : Int := q.floor
  let r : Rat := q - f
  if r < 1/2 then f
  else if 1/2 < r then f + 1
  else if f % 2 = 0 then f else f + 1

/-- `max(1, min(5, x))` (predictor.py lines 382-384 and analogues). -/
def clamp15 (x : Int) : Int := max 1 (min 5 x)

/-- Score extraction from one accepted prediction row
(predictor.py lines 382-384, 392-397 and the batch analogues 457-468):
the first three values are rounded and clamped to [1,5], and the
criticality level is recomputed as their sum; a 4th predicted value is
read but discarded in both branches of the source. -/
def mkScores (v : List Rat) : ScoreResult :=
  ⟨clamp15 (pyRound (v.getD 0 0)),
   clamp15 (pyRound (v.getD 1 0)),
   clamp15 (pyRound (v.getD 2 0)),
   clamp15 (pyRound (v.getD 0 0)) + clamp15 (pyRound (v.getD 1 0)) +
     clamp15 (pyRound (v.getD 2 0))⟩

/-- A generic (non-dict, non-sequence) Python object, with the structural
features `_validate_model` inspects and the capabilities the engine may
invoke on it.  `predictFn` models `model.predict` (an `Except` value
models a raised exception); `transform` models a fitted label encoder
(`none` models the ValueError raised on an unseen category);
`vtransform` models a fitted text vectorizer row. -/
structure PyLeaf where
  hasPredict : Bool
  predictCallable : Bool
  className : String
  mro : List String
  predictFn : List (List Nat) → Except String RawPred
  transform : String → Option Nat
  vtransform : String → List Nat

/-- A loaded Python object graph, as far as
`_extract_model_from_loaded_object` inspects it: a bare object, a dict,
or a list/tuple. -/
inductive PyObj where
  | leaf (o : PyLeaf)
  | dict (entries : List (String × PyObj))
  | seq (items : List PyObj)

/-- predictor.py line 108. -/
def valid_sklearn_bases : List String :=
  ["BaseEstimator", "ClassifierMixin", "RegressorMixin"]

/-- predictor.py lines 119-126. -/
def sklearn_models : List String :=
  ["RandomForestRegressor", "RandomForestClassifier",
   "LinearRegression", "LogisticRegression",
   "SVC", "SVR", "DecisionTreeRegressor", "DecisionTreeClassifier",
   "GradientBoostingRegressor", "GradientBoostingClassifier",
   "XGBRegressor", "XGBClassifier",
   "LGBMRegressor", "LGBMClassifier"]

/-- `TAMSPredictor._validate_model` (predictor.py lines 84-141).
A Python dict fails the isinstance check (line 88); a Python list/tuple
has no `predict` attribute (line 93).  For any other object the
attribute and callability checks run, then the advisory class-name and
inheritance inspection (lines 103-137), every branch of which returns
True. -/
def validate_model : PyObj → Bool
  | .dict _ => false
  | .seq _ => false
  | .leaf o =>
    if !o.hasPredict then false
    else if !o.predictCallable then false
    else if valid_sklearn_bases.any (fun b => o.mro.contains b) then true
    else if sklearn_models.contains o.className then true
    else true

/-- Is the object a raw Python mapping? -/
def isDictB : PyObj → Bool
  | .dict _ => true
  | _ => false

/-- Does the object expose a callable `predict` attribute? -/
def hasCallablePredictB : PyObj → Bool
  | .leaf o => o.hasPredict && o.predictCallable
  | _ => false

/-- The validity predicate as the specification words it: not itself a
raw mapping, and exposes a callable prediction operation. -/
def validityPred (p : PyObj) : Bool := !(isDictB p) && hasCallablePredictB p

/-- Python `d[k]` / `k in d` lookup on an embedded dict. -/
def lookupD (entries : List (String × PyObj)) (k : String) : Option PyObj :=
  (entries.find? (fun e => e.1 == k)).map (fun e => e.2)

/-- predictor.py line 522. -/
def model_keys : List String :=
  ["model", "estimator", "classifier", "regressor", "predictor"]

/-- `TAMSPredictor._extract_model_from_loaded_object`
(predictor.py lines 509-559): a bare valid object is returned as is;
a dict is probed at the conventional keys in order (a present but
invalid value moves on to the next key), then all its values are
scanned in insertion order; a list/tuple is scanned by index;
anything else yields None. -/
def extract_model (loaded_object : PyObj) : Option PyObj :=
  if validate_model loaded_object then some loaded_object
  else
    match loaded_object with
    | .dict entries =>
      match model_keys.findSome? (fun k =>
          match lookupD entries k with
          | some v => if validate_model v then some v else none
          | none => none) with
      | some m => some m
      | none =>
        entries.findSome? (fun e =>
          if validate_model e.2 then some e.2 else none)
    | .seq items => items.find? (fun it => validate_model it)
    | .leaf _ => none

/-- The extraction procedure as the specification words it, written with
the specification validity predicate: prefer a bare valid object; else
probe the known bundle keys in the fixed order; else scan the remaining
mapping values (those not under a probed key); else scan sequence
elements by index; else None. -/
def extractSpec (p : PyObj) : Option PyObj :=
  if validityPred p then some p
  else
    match p with
    | .dict entries =>
      match model_keys.findSome? (fun k =>
          match lookupD entries k with
          | some v => if validityPred v then some v else none
          | none => none) with
      | some m => some m
      | none =>
        (entries.filter (fun e => !(model_keys.contains e.1))).findSome?
          (fun e => if validityPred e.2 then some e.2 else none)
    | .seq items => items.find? (fun it => validityPred it)
    | .leaf _ => none

/-- The mutable state of a `TAMSPredictor` instance together with the
module-level flag `DEPENDENCIES_AVAILABLE` (predictor.py lines 15, 38-45). -/
structure EngineState where
  deps_available : Bool
  model : Option PyLeaf
  model_loaded : Bool
  label_encoders : List (String × PyLeaf)
  vectorizer : Option PyLeaf

/-- The union of the record keys, in order of first appearance: the
columns of `pd.DataFrame(data)`. -/
def dfColumns (rs : List Record) : List String :=
  rs.foldl (fun acc r =>
    r.foldl (fun acc2 p => if acc2.contains p.1 then acc2 else acc2 ++ [p.1]) acc) []

/-- The DataFrame cell for record `r` and column `c` after
`df.fillna("unknown")` and `str(...)`: a missing key is NaN and becomes
the string unknown. -/
def cellStr (r : Record) (c : String) : String :=
  match r.find? (fun p => p.1 == c) with
  | some p => pyStr p.2
  | none => "unknown"

/-- Python `desc.lower().split()`: split on whitespace runs, no empty
words (predictor.py line 294). -/
def wordsAux : List Char → List Char → List String
  | acc, [] => if acc.isEmpty then [] else [String.mk acc.reverse]
  | acc, c :: rest =>
    if c.isWhitespace then
      if acc.isEmpty then wordsAux [] rest
      else String.mk acc.reverse :: wordsAux [] rest
    else wordsAux (c :: acc) rest

def pySplit (s : String) : List String := wordsAux [] s.data

/-- One row of the bag-of-words block of `_prepare_features_fallback`
(predictor.py lines 289-297): the first 100 words are hashed modulo 100
into consecutive slots of a zero row of width 100. -/
def textRow (h : String → Nat) (desc : String) : List Nat :=
  let ws := (pySplit (lowerString desc)).take 100
  ws.map (fun w => h w % 100) ++ List.replicate (100 - ws.length) 0

/-- `TAMSPredictor._prepare_features_fallback` (predictor.py lines
261-316).  `h` is the process Python string hash; `eF = true` means the
try block raised, so the except handler returns the fixed
`np.zeros((1, 104))` (line 316).  On the normal path the matrix is, per
record: one hash-encoded column for each of `systeme` and
`num_equipement` that occurs among the records (in that order, lines
275-281), then the 100-wide description block (lines 284-302); blocks
are joined along axis 1 (line 306). -/
def prepare_features_fallback (h : String → Nat) (eF : Bool)
    (data : List Record) : List (List Nat) :=
  if eF then [List.replicate 104 0]
  else
    let cols := dfColumns data
    let numericCols := ["systeme", "num_equipement"].filter (fun c => cols.contains c)
    data.map (fun r =>
      numericCols.map (fun c => h (cellStr r c) % 1000) ++
      (if cols.contains "description" then textRow h (cellStr r "description")
       else List.replicate 100 0))

/-- The per-value encoding of `_prepare_features_with_saved_components`
(predictor.py lines 206-214): try the saved encoder, and on the
ValueError raised by an unseen category use the default code 0. -/
def encodeCell (l : PyLeaf) (s : String) : Nat := (l.transform s).getD 0

/-- predictor.py lines 181-186: the alias table applied to a DataFrame
column name. -/
def columnMapping (c : String) : String :=
  if c == "num_equipement" then "Num_equipement"
  else if c == "systeme" then "Systeme"
  else if c == "description" then "Description de l\x27équipement"
  else if c == "section_proprietaire" then "Section propriétaire"
  else c

/-- predictor.py lines 190-197: locate the DataFrame column matching an
encoder key, by case-insensitive match, exact match, or the alias
table. -/
def findDfCol (cols : List String) (colKey : String) : Option String :=
  cols.find? (fun c =>
    lowerString c == lowerString colKey || c == colKey || columnMapping c == colKey)

/-- predictor.py lines 225-229: locate a description-like column. -/
def findDescCol (cols : List String) : Option String :=
  cols.find? (fun c =>
    strContainsB (lowerString c) "description" || strContainsB (lowerString c) "desc")

/-- `TAMSPredictor._prepare_features_with_saved_components`
(predictor.py lines 175-259).  `eS = true` means the try block raised
and the except handler falls back to `_prepare_features_fallback`
(line 259); the same happens when no feature block was built
(lines 253-255).  Otherwise, per saved encoder in order: the matching
column is encoded cell-wise (unseen categories become 0), or a zero
column substitutes a missing one (line 220); then the vectorizer row for
the description-like column, or a zero row of width 100 (line 246). -/
def prepare_features_with_saved_components (st : EngineState)
    (h : String → Nat) (eS eF : Bool) (data : List Record) : List (List Nat) :=
  if eS then prepare_features_fallback h eF data
  else if st.label_encoders.isEmpty && st.vectorizer.isNone then
    prepare_features_fallback h eF data
  else
    let cols := dfColumns data
    data.map (fun r =>
      (st.label_encoders.map (fun p =>
        match findDfCol cols p.1 with
        | some c => encodeCell p.2 (cellStr r c)
        | none => 0)) ++
      (match st.vectorizer with
       | some vz =>
         match findDescCol cols with
         | some dc => vz.vtransform (cellStr r dc)
         | none => List.replicate 100 0
       | none => []))

/-- `TAMSPredictor._prepare_features` (predictor.py lines 143-173) for
the case `DEPENDENCIES_AVAILABLE = true` (its callers in the engine
reach it only under that guard; with the flag false the raw data is
returned and the model path is never entered).  `eD = true` means the
try block raised and the except handler falls back (line 173). -/
def prepare_features (st : EngineState) (h : String → Nat)
    (eD eS eF : Bool) (data : List Record) : List (List Nat) :=
  if eD then prepare_features_fallback h eF data
  else if !st.label_encoders.isEmpty && st.vectorizer.isSome then
    prepare_features_with_saved_components st h eS eF data
  else prepare_features_fallback h eF data

/-- Output-shape handling of `predict_single` (predictor.py lines
380-415): a 2-D prediction with at least 3 columns is read off row 0; a
1-D prediction with at least 3 entries is read directly; anything else
(including a 2-D prediction with no row, whose row 0 access raises) is
`none` and routes to the rule-based path. -/
def scoresFromPred : RawPred → Option ScoreResult
  | .d2 (row0 :: _) => if row0.length ≥ 3 then some (mkScores row0) else none
  | .d2 [] => none
  | .d1 v => if v.length ≥ 3 then some (mkScores v) else none

/-- `TAMSPredictor.predict_single` (predictor.py lines 361-434). -/
def predict_single (st : EngineState) (h : String → Nat)
    (eD eS eF : Bool) (r : Record) : ScoreResult :=
  match st.model with
  | none => fallback_prediction r
  | some m =>
    if st.deps_available && st.model_loaded && validate_model (.leaf m) then
      match m.predictFn (prepare_features st h eD eS eF [r]) with
      | .error _ => fallback_prediction r
      | .ok p =>
        match scoresFromPred p with
        | some res => res
        | none => fallback_prediction r
    else fallback_prediction r

/-- Iterating `for i, prediction in enumerate(predictions)`
(predictor.py line 451): over a 2-D array the items are its 1-D rows;
over a 1-D array the items are scalars, which fail both shape tests of
the loop body (no `shape` of length 1, no `__len__`), here rendered as
singleton rows. -/
def predRows : RawPred → List (List Rat)
  | .d1 v => v.map (fun q => [q])
  | .d2 rows => rows

/-- The loop body of `predict_batch` (predictor.py lines 450-496): a row
with at least 3 entries is scored like a single prediction; any other
row falls back to the rule-based score of `anomalies_data[i]`, and when
`i` is out of range the IndexError aborts the whole loop (modelled by
`none`), landing in the outer except handler. -/
def batchLoop (rs : List Record) : Nat → List (List Rat) → Option (List ScoreResult)
  | _, [] => some []
  | i, row :: rest =>
    if row.length ≥ 3 then
      (batchLoop rs (i + 1) rest).map (fun out => mkScores row :: out)
    else
      match rs.get? i with
      | some r => (batchLoop rs (i + 1) rest).map (fun out => fallback_prediction r :: out)
      | none => none

/-- `TAMSPredictor.predict_batch` (predictor.py lines 436-507). -/
def predict_batch (st : EngineState) (h : String → Nat)
    (eD eS eF : Bool) (rs : List Record) : List ScoreResult :=
  match st.model with
  | none => rs.map fallback_prediction
  | some m =>
    if st.deps_available && st.model_loaded && validate_model (.leaf m) then
      match m.predictFn (prepare_features st h eD eS eF rs) with
      | .error _ => rs.map fallback_prediction
      | .ok p =>
        match batchLoop rs 0 (predRows p) with
        | some out => out
        | none => rs.map fallback_prediction
    else rs.map fallback_prediction

/-- The state `__init__` leaves behind when no usable model is obtained
(predictor.py lines 38-45, 70-82): this is baseline-only mode. -/
def noModelState (deps : Bool) : EngineState :=
  { deps_available := deps, model := none, model_loaded := false,
    label_encoders := [], vectorizer := none }

/-- `loaded_object.get("label_encoders", {})` (predictor.py line 65),
keeping only encoder-like members (the engine later iterates the dict
and calls `transform` on its values). -/
def bundleEncoders : PyObj → List (String × PyLeaf)
  | .dict es =>
    match lookupD es "label_encoders" with
    | some (.dict encEntries) =>
      encEntries.filterMap (fun p =>
        match p.2 with
        | .leaf l => some (p.1, l)
        | _ => none)
    | _ => []
  | _ => []

/-- `loaded_object.get("vectorizer", None)` (predictor.py line 66). -/
def bundleVectorizer : PyObj → Option PyLeaf
  | .dict es =>
    match lookupD es "vectorizer" with
    | some (.leaf l) => some l
    | _ => none
  | _ => none

/-- `TAMSPredictor.__init__` (predictor.py lines 34-82).  `env` models
the artifact found at the model path: `none` when `os.path.exists` is
false, `some (.error msg)` when `joblib.load` raises, `some (.ok lo)`
when it yields the object `lo`.  Only a successfully extracted and
validated model sets `model` and `model_loaded`; every other outcome,
including a raised exception (lines 78-82), leaves baseline-only
mode. -/
def predictor_init (deps : Bool) (env : Option (Except String PyObj)) : EngineState :=
  match env with
  | none => noModelState deps
  | some (.error _) => noModelState deps
  | some (.ok lo) =>
    match extract_model lo with
    | some m =>
      if validate_model m then
        match m with
        | .leaf o =>
          { deps_available := deps, model := some o, model_loaded := true,
            label_encoders := bundleEncoders lo, vectorizer := bundleVectorizer lo }
        | _ => noModelState deps
      else noModelState deps
    | none => noModelState deps

/-- The invariant claimed for every returned `ScoreResult`: component
scores in [1,5], criticality in [3,15] and equal to the component sum. -/
def ValidScore (res : ScoreResult) : Prop :=
  (1 ≤ res.ai_fiabilite_integrite_score ∧ res.ai_fiabilite_integrite_score ≤ 5) ∧
  (1 ≤ res.ai_disponibilite_score ∧ res.ai_disponibilite_score ≤ 5) ∧
  (1 ≤ res.ai_process_safety_score ∧ res.ai_process_safety_score ≤ 5) ∧
  (3 ≤ res.ai_criticality_level ∧ res.ai_criticality_level ≤ 15) ∧
  res.ai_criticality_level =
    res.ai_fiabilite_integrite_score + res.ai_disponibilite_score +
      res.ai_process_safety_score

instance (res : ScoreResult) : Decidable (ValidScore res) := by
  unfold ValidScore; infer_instance

/-- What `predict_batch` does with one prediction row and the record at
the same position: model scores for a well-shaped row, the rule-based
score otherwise. -/
def scoreOrFallback (row : List Rat) (r : Record) : ScoreResult :=
  if row.length ≥ 3 then mkScores row else fallback_prediction r

/-- The specification wording of the rule-based scorer classifies the
description into one of three keyword tiers (or none). -/
inductive Tier where
  | critical
  | medium
  | low
  | neutral
deriving DecidableEq

/-- Tier classification in priority order: critical beats medium beats
low; no match is neutral. -/
def tierOf (d : String) : Tier :=
  if critical_keywords.any (fun k => strContainsB d k) then .critical
  else if medium_keywords.any (fun k => strContainsB d k) then .medium
  else if low_keywords.any (fun k => strContainsB d k) then .low
  else .neutral

/-- Base scores per tier, as the specification words them. -/
def tierBase : Tier → Int × Int × Int
  | .critical => (4, 4, 5)
  | .medium => (3, 3, 3)
  | .low => (2, 2, 2)
  | .neutral => (3, 3, 3)

/-- Capping at 5, as the specification words it. -/
def capAt5 (x : Int) : Int := min 5 x

/-- The rule-based scorer as the specification words it (spec section
4.3), for comparison with `fallback_prediction`: classify the
lower-cased description into a tier, take the tier base scores, then
adjust by the system text (electrical raises process safety, hydraulic
or pneumatic raises availability, both capped at 5), and sum. -/
def ruleScoreSpec (r : Record) : ScoreResult :=
  let d := lowerString (pyGetStr r "description" "")
  let s := lowerString (pyGetStr r "systeme" "")
  let b := tierBase (tierOf d)
  let adj : Int × Int × Int :=
    if strContainsB s "electrical" then (b.1, b.2.1, capAt5 (b.2.2 + 1))
    else if strContainsB s "hydraulic" || strContainsB s "pneumatic" then
      (b.1, capAt5 (b.2.1 + 1), b.2.2)
    else b
  ⟨adj.1, adj.2.1, adj.2.2, adj.1 + adj.2.1 + adj.2.2⟩

/-- A record on which no keyword tier and no system adjustment fires. -/
def neutralRecord (r : Record) : Bool :=
  let d := lowerString (pyGetStr r "description" "")
  let s := lowerString (pyGetStr r "systeme" "")
  !(critical_keywords.any (fun k => strContainsB d k)) &&
  !(medium_keywords.any (fun k => strContainsB d k)) &&
  !(low_keywords.any (fun k => strContainsB d k)) &&
  !(strContainsB s "electrical") &&
  !(strContainsB s "hydraulic") &&
  !(strContainsB s "pneumatic")

/-- Replace an encoder by its totalized version: every category is seen,
and a previously unseen category carries the default code 0.  Used to
state that unseen categories behave exactly like seen ones encoded 0. -/
def totalizeLeaf (l : PyLeaf) : PyLeaf :=
  { l with transform := fun v => some ((l.transform v).getD 0) }

/-- Totalize every saved encoder of the engine state. -/
def totalizeState (st : EngineState) : EngineState :=
  { st with label_encoders := st.label_encoders.map (fun p => (p.1, totalizeLeaf p.2)) }

/-- The call protocol of `_fallback_prediction` as a state transformer:
the method reads nothing from `self` and assigns no attribute, so the
state passes through unchanged. -/
def fallback_call (st : EngineState) (r : Record) : EngineState × ScoreResult :=
  (st, fallback_prediction r)

/-- A fixed stand-in for the process string hash, used by witnesses. -/
def h0 : String → Nat := fun _ => 0

/-- A model object whose predict call always raises. -/
def errLeaf : PyLeaf :=
  { hasPredict := true, predictCallable := true,
    className := "MultiOutputRegressor",
    mro := ["MultiOutputRegressor", "BaseEstimator", "object"],
    predictFn := fun _ => .error "boom",
    transform := fun _ => none,
    vtransform := fun _ => List.replicate 100 0 }

/-- An engine state holding the raising model. -/
def errState : EngineState :=
  { deps_available := true, model := some errLeaf, model_loaded := true,
    label_encoders := [], vectorizer := none }

/-- A model object answering a fixed 3-row batch whose middle row is
malformed (a single value instead of at least three). -/
def okLeaf3 : PyLeaf :=
  { errLeaf with predictFn := fun _ => .ok (.d2 [[2, 2, 2], [9], [4, 4, 4]]) }

/-- An engine state holding that model. -/
def st3 : EngineState := { errState with model := some okLeaf3 }

/-- A model object that answers a single well-shaped prediction row —
as a model whose expected input width is 104 would when fed the fixed
1 by 104 degraded matrix of predictor.py line 316. -/
def oneRowLeaf : PyLeaf :=
  { errLeaf with predictFn := fun _ => .ok (.d2 [[2, 2, 2]]) }

/-- An engine state holding that model. -/
def oneRowState : EngineState := { errState with model := some oneRowLeaf }

/-- Further concrete records for batch witnesses. -/
def recB : Record :=
  [("num_equipement", .vStr "EQ002"), ("systeme", .vStr "Electrical"),
   ("description", .vStr "wear detected")]

def recC : Record :=
  [("num_equipement", .vStr "EQ003"), ("systeme", .vStr "Mechanical"),
   ("description", .vStr "calibration due")]

def rs3 : List Record := [exRecord, recB, recC]

/-- An object without a predict attribute: never admitted. -/
def badLeaf : PyLeaf := { errLeaf with hasPredict := false }

/-- A fitted label encoder that has seen only the category Hydraulic. -/
def encLeaf : PyLeaf :=
  { badLeaf with transform := fun s => if s == "Hydraulic" then some 1 else none }

/-- A fitted vectorizer object. -/
def vecLeaf : PyLeaf :=
  { badLeaf with vtransform := fun _ => List.replicate 100 0 }

/-- A bundle artifact: the valid model sits under the probed key
estimator, after an invalid value under the probed key model. -/
def bundleObj : PyObj :=
  .dict [("label_encoders", .dict [("systeme", .leaf encLeaf)]),
         ("model", .dict []),
         ("estimator", .leaf okLeaf3),
         ("vectorizer", .leaf vecLeaf)]

/-- An engine state with a loaded encoder bundle in use. -/
def savedState : EngineState :=
  { deps_available := true, model := some okLeaf3, model_loaded := true,
    label_encoders := [("systeme", encLeaf)], vectorizer := some vecLeaf }

theorem clamp15_bounds (x : Int) : 1 ≤ clamp15 x ∧ clamp15 x ≤ 5 := by
  unfold clamp15
  exact ⟨le_max_left 1 _, max_le (by norm_num) (min_le_left 5 x)⟩

theorem valid_mkScores (v : List Rat) : ValidScore (mkScores v) := by
  have a := clamp15_bounds (pyRound (v.getD 0 0))
  have b := clamp15_bounds (pyRound (v.getD 1 0))
  have c := clamp15_bounds (pyRound (v.getD 2 0))
  unfold ValidScore mkScores
  dsimp only
  omega

theorem valid_fallback (r : Record) : ValidScore (fallback_prediction r) := by
  simp only [fallback_prediction, baseScores, adjustScores]
  split_ifs <;> decide

theorem scoresFromPred_some (p : RawPred) (res : ScoreResult)
    (h : scoresFromPred p = some res) : ∃ v, res = mkScores v := by
  cases p with
  | d1 v =>
    simp only [scoresFromPred] at h
    split at h
    · exact ⟨v, (Option.some.inj h).symm⟩
    · cases h
  | d2 rows =>
    cases rows with
    | nil => simp [scoresFromPred] at h
    | cons row0 rest =>
      simp only [scoresFromPred] at h
      split at h
      · exact ⟨row0, (Option.some.inj h).symm⟩
      · cases h

theorem predict_single_outcomes (st : EngineState) (h : String → Nat)
    (eD eS eF : Bool) (r : Record) :
    predict_single st h eD eS eF r = fallback_prediction r ∨
    ∃ v, predict_single st h eD eS eF r = mkScores v := by
  unfold predict_single
  split
  · exact Or.inl rfl
  · split
    · split
      · exact Or.inl rfl
      · rename_i p hok
        split
        · rename_i res hs
          obtain ⟨v, hv⟩ := scoresFromPred_some p res hs
          exact Or.inr ⟨v, hv⟩
        · exact Or.inl rfl
    · exact Or.inl rfl

theorem forall_valid_map_fallback (rs : List Record) :
    List.Forall ValidScore (rs.map fallback_prediction) := by
  induction rs with
  | nil => trivial
  | cons a l ih =>
    exact (List.forall_cons ValidScore _ _).mpr ⟨valid_fallback a, ih⟩

theorem batchLoop_valid (rs : List Record) (rows : List (List Rat)) :
    ∀ i out, batchLoop rs i rows = some out → List.Forall ValidScore out := by
  induction rows with
  | nil =>
    intro i out hout
    unfold batchLoop at hout
    cases hout
    trivial
  | cons row rest ih =>
    intro i out hout
    unfold batchLoop at hout
    split at hout
    · cases hb : batchLoop rs (i + 1) rest with
      | none => rw [hb] at hout; cases hout
      | some o =>
        rw [hb] at hout
        cases hout
        exact (List.forall_cons ValidScore _ _).mpr ⟨valid_mkScores row, ih (i + 1) o hb⟩
    · split at hout
      · cases hb : batchLoop rs (i + 1) rest with
        | none => rw [hb] at hout; cases hout
        | some o =>
          rw [hb] at hout
          cases hout
          exact (List.forall_cons ValidScore _ _).mpr ⟨valid_fallback _, ih (i + 1) o hb⟩
      · cases hout

theorem predict_batch_valid (st : EngineState) (h : String → Nat)
    (eD eS eF : Bool) (rs : List Record) :
    List.Forall ValidScore (predict_batch st h eD eS eF rs) := by
  unfold predict_batch
  split
  · exact forall_valid_map_fallback rs
  · split
    · split
      · exact forall_valid_map_fallback rs
      · rename_i p hok
        split
        · rename_i out hb
          exact batchLoop_valid rs (predRows p) 0 out hb
        · exact forall_valid_map_fallback rs
    · exact forall_valid_map_fallback rs

/-- Claim C1: every result returned by the engine, on the model path and
on the rule-based path, for a single record and for every member of a
batch, has its three component scores in [1,5] and its criticality level
equal to their sum (hence in [3,15]); in particular a 4th model output
never enters the returned criticality, which is always the recomputed
sum. -/
theorem c1_scores_bounded_and_summed (st : EngineState) (h : String → Nat)
    (eD eS eF : Bool) (r : Record) (rs : List Record) :
    ValidScore (predict_single st h eD eS eF r) ∧
    List.Forall ValidScore (predict_batch st h eD eS eF rs) := by
  refine ⟨?_, predict_batch_valid st h eD eS eF rs⟩
  rcases predict_single_outcomes st h eD eS eF r with he | ⟨v, hv⟩
  · rw [he]; exact valid_fallback r
  · rw [hv]; exact valid_mkScores v

/-- Claim C4: the rule-based scorer computes exactly the keyword cascade
(critical beats medium beats low), then the system adjustment capped at
5, then the sum — stated as extensional equality with the
specification-worded scorer — and the specification example record
yields (4,5,5) with criticality 14. -/
theorem c4_rule_scorer_algorithm :
    (∀ r : Record, fallback_prediction r = ruleScoreSpec r) ∧
    fallback_prediction exRecord = ⟨4, 5, 5, 14⟩ := by
  constructor
  · intro r
    simp only [fallback_prediction, ruleScoreSpec, baseScores, adjustScores,
      tierOf, tierBase, capAt5]
    split_ifs <;> rfl
  · decide

/-- Claim C9: the rule-based scorer is pure — its result does not depend
on the engine state, the call leaves the state unchanged, and the result
depends only on the description and systeme fields it reads. -/
theorem c9_rule_scorer_pure :
    (∀ st st2 : EngineState, ∀ r : Record,
      (fallback_call st r).2 = (fallback_call st2 r).2) ∧
    (∀ st : EngineState, ∀ r : Record, (fallback_call st r).1 = st) ∧
    (∀ r r2 : Record,
      pyGetStr r "description" "" = pyGetStr r2 "description" "" →
      pyGetStr r "systeme" "" = pyGetStr r2 "systeme" "" →
      fallback_prediction r = fallback_prediction r2) := by
  refine ⟨fun _ _ _ => rfl, fun _ _ => rfl, fun r r2 hd hs => ?_⟩
  simp only [fallback_prediction, hd, hs]

theorem c9_witness :
    fallback_prediction [("description", Value.vStr "leak"), ("foo", Value.vInt 1)] =
      fallback_prediction [("description", Value.vStr "leak")] ∧
    (fallback_call errState exRecord).1 = errState :=
  ⟨c9_rule_scorer_pure.2.2 _ _ rfl rfl, c9_rule_scorer_pure.2.1 errState exRecord⟩

/-- Claim C10: on a record whose description and systeme are absent,
empty, or match no keyword tier and no system adjustment (missing fields
defaulting to the empty string and non-string values being stringified),
the rule-based scorer returns exactly (3,3,3) with criticality 9. -/
theorem c10_neutral_record_baseline (r : Record) (hn : neutralRecord r = true) :
    fallback_prediction r = ⟨3, 3, 3, 9⟩ := by
  simp only [neutralRecord, Bool.and_eq_true, Bool.not_eq_true'] at hn
  obtain ⟨⟨⟨⟨⟨h1, h2⟩, h3⟩, h4⟩, h5⟩, h6⟩ := hn
  simp [fallback_prediction, baseScores, adjustScores, h1, h2, h3, h4, h5, h6]

theorem c10_witness :
    neutralRecord [("description", Value.vInt 42), ("systeme", Value.vNone)] = true ∧
    fallback_prediction [("description", Value.vInt 42), ("systeme", Value.vNone)] =
      ⟨3, 3, 3, 9⟩ :=
  ⟨by decide, c10_neutral_record_baseline _ (by decide)⟩

theorem batchLoop_zip (rs : List Record) (rows : List (List Rat)) :
    ∀ i, i + rows.length ≤ rs.length →
      batchLoop rs i rows = some (List.zipWith scoreOrFallback rows (rs.drop i)) := by
  induction rows with
  | nil => intro i hi; simp [batchLoop]
  | cons row rest ih =>
    intro i hi
    simp only [List.length_cons] at hi
    have hlt : i < rs.length := by omega
    have hdrop : rs.drop i = rs[i] :: rs.drop (i + 1) := List.drop_eq_getElem_cons hlt
    have hrec := ih (i + 1) (by omega)
    unfold batchLoop
    by_cases hrow : row.length ≥ 3
    · rw [if_pos hrow, hrec, hdrop, List.zipWith_cons_cons]
      simp [scoreOrFallback, hrow]
    · rw [if_neg hrow]
      have hget : rs.get? i = some rs[i] := by
        rw [List.get?_eq_getElem?]
        exact List.getElem?_eq_getElem hlt
      rw [hget, hrec, hdrop, List.zipWith_cons_cons]
      simp [scoreOrFallback, hrow]

/-- Claim C2: the public operations absorb every internal failure — a
raised estimator call makes `predict_single` return the rule-based
result and `predict_batch` return the rule-based result for every
record, and `predict_single` always returns either a rule-based result
or a normalized model result (it has no other outcome and no failure
path). -/
theorem c2_public_ops_absorb_failures :
    (∀ (st : EngineState) (h : String → Nat) (eD eS eF : Bool) (r : Record)
        (m : PyLeaf) (msg : String),
      st.model = some m →
      m.predictFn (prepare_features st h eD eS eF [r]) = .error msg →
      predict_single st h eD eS eF r = fallback_prediction r) ∧
    (∀ (st : EngineState) (h : String → Nat) (eD eS eF : Bool)
        (rs : List Record) (m : PyLeaf) (msg : String),
      st.model = some m →
      m.predictFn (prepare_features st h eD eS eF rs) = .error msg →
      predict_batch st h eD eS eF rs = rs.map fallback_prediction) ∧
    (∀ (st : EngineState) (h : String → Nat) (eD eS eF : Bool) (r : Record),
      predict_single st h eD eS eF r = fallback_prediction r ∨
      ∃ v, predict_single st h eD eS eF r = mkScores v) := by
  refine ⟨?_, ?_, fun st h eD eS eF r => predict_single_outcomes st h eD eS eF r⟩
  · intro st h eD eS eF r m msg hm herr
    simp only [predict_single, hm]
    split
    · simp only [herr]
    · rfl
  · intro st h eD eS eF rs m msg hm herr
    simp only [predict_batch, hm]
    split
    · simp only [herr]
    · rfl

theorem c2_witness :
    predict_single errState h0 false false false exRecord =
      fallback_prediction exRecord ∧
    predict_batch errState h0 false false false rs3 =
      rs3.map fallback_prediction :=
  ⟨c2_public_ops_absorb_failures.1 errState h0 false false false exRecord
      errLeaf "boom" rfl rfl,
   c2_public_ops_absorb_failures.2.1 errState h0 false false false rs3
      errLeaf "boom" rfl rfl⟩

/-- Claim C3 (amended): the one-to-one, order-preserving guarantee of
`predict_batch` is conditional on the estimator answering one
prediction row per input record — under that condition the output is
exactly one result per record in input order, a malformed row routing
only its own record to the rule-based scorer while the other rows keep
their model results and positions — and a raised estimator call (not a
feature-build failure, which instead degrades the feature matrix and
leaves the estimator in charge of the row count) degrades the whole
batch to rule-based results, one per record in order. -/
theorem c3_batch_one_to_one_in_order :
    (∀ (st : EngineState) (h : String → Nat) (eD eS eF : Bool)
        (rs : List Record) (m : PyLeaf) (rows : List (List Rat)),
      st.model = some m →
      (st.deps_available && st.model_loaded && validate_model (.leaf m)) = true →
      m.predictFn (prepare_features st h eD eS eF rs) = .ok (.d2 rows) →
      rows.length = rs.length →
      predict_batch st h eD eS eF rs = List.zipWith scoreOrFallback rows rs) ∧
    (∀ (st : EngineState) (h : String → Nat) (eD eS eF : Bool)
        (rs : List Record) (m : PyLeaf) (msg : String),
      st.model = some m →
      m.predictFn (prepare_features st h eD eS eF rs) = .error msg →
      predict_batch st h eD eS eF rs = rs.map fallback_prediction) := by
  constructor
  · intro st h eD eS eF rs m rows hm hg hok hlen
    have hz := batchLoop_zip rs rows 0 (by omega)
    simp only [predict_batch, hm, hg, if_true, hok, predRows, hz, List.drop_zero]
  · intro st h eD eS eF rs m msg hm herr
    simp only [predict_batch, hm]
    split
    · simp only [herr]
    · rfl

theorem c3_witness :
    predict_batch st3 h0 false false false rs3 =
      List.zipWith scoreOrFallback [[2, 2, 2], [9], [4, 4, 4]] rs3 ∧
    predict_batch errState h0 false false false rs3 =
      rs3.map fallback_prediction :=
  ⟨c3_batch_one_to_one_in_order.1 st3 h0 false false false rs3 okLeaf3
      [[2, 2, 2], [9], [4, 4, 4]] rfl rfl rfl rfl,
   c3_batch_one_to_one_in_order.2 errState h0 false false false rs3
      errLeaf "boom" rfl rfl⟩

/-- Claim C3 counterexample: with two input records and a feature-build
failure (`eF = true`, the except handler of predictor.py line 316 that
returns the fixed 1 by 104 zero matrix), a model that then answers one
well-shaped prediction row makes `predict_batch` return a single result
for the two records — so the claimed unconditional one-result-per-input
guarantee fails, and a feature-build failure does not degrade the batch
to one rule-based result per record either. -/
theorem c3_counterexample :
    ¬ ((predict_batch oneRowState h0 false false true [exRecord, recB]).length = 2 ∨
       predict_batch oneRowState h0 false false true [exRecord, recB] =
         [exRecord, recB].map fallback_prediction) := by
  intro hclaim
  rcases hclaim with hlen | heq
  · exact absurd hlen (by decide)
  · have hlen := congrArg List.length heq
    exact absurd hlen (by decide)

theorem textRow_length (h : String → Nat) (d : String) : (textRow h d).length = 100 := by
  unfold textRow
  have hle : ((pySplit (lowerString d)).take 100).length ≤ 100 := by
    rw [List.length_take]
    exact min_le_left _ _
  simp only [List.length_append, List.length_map, List.length_replicate]
  omega

/-- Claim C5 counterexample: with two input records, an internal failure
of the fallback feature builder yields the fixed 1 by 104 zero matrix of
predictor.py line 316 — not an all-zero matrix with the row count of the
input (2) and the expected width (102) as the claim states. -/
theorem c5_counterexample :
    ¬ ((prepare_features_fallback h0 true [exRecord, recB]).length = 2 ∧
       (prepare_features_fallback h0 true [exRecord, recB]).all
         (fun row => row.length == 102) = true) := by
  decide

/-- Claim C5 (amended): on the normal path the fallback feature builder
returns one row per record with exactly 102 columns (the two
hash-encoded categorical columns plus the 100-wide description block)
whenever the systeme and num_equipement columns occur among the records;
an internal failure instead yields the fixed all-zero 1 by 104 matrix
(`np.zeros((1, 104))`, predictor.py line 316) regardless of the input
row count. -/
theorem c5_fallback_features_amended :
    (∀ (h : String → Nat) (data : List Record),
      data ≠ [] →
      (dfColumns data).contains "systeme" = true →
      (dfColumns data).contains "num_equipement" = true →
      (prepare_features_fallback h false data).length = data.length ∧
      (prepare_features_fallback h false data).all
        (fun row => row.length == 102) = true) ∧
    (∀ (h : String → Nat) (data : List Record),
      prepare_features_fallback h true data = [List.replicate 104 0]) := by
  constructor
  · intro h data _ hs hn
    have hs2 : "systeme" ∈ dfColumns data := by simpa using hs
    have hn2 : "num_equipement" ∈ dfColumns data := by simpa using hn
    have hflt : (["systeme", "num_equipement"].filter
        (fun c => (dfColumns data).contains c)) = ["systeme", "num_equipement"] := by
      simp [List.filter_cons, hs2, hn2]
    constructor
    · simp [prepare_features_fallback]
    · rw [List.all_eq_true]
      intro row hrow
      simp only [prepare_features_fallback, Bool.false_eq_true, if_false,
        List.mem_map] at hrow
      obtain ⟨r, _, hrw⟩ := hrow
      have hlen : row.length = 102 := by
        rw [← hrw, List.length_append, hflt]
        by_cases hd : (dfColumns data).contains "description" = true
        · rw [if_pos hd, textRow_length]; rfl
        · rw [if_neg hd, List.length_replicate]; rfl
      simp [hlen]
  · intro h data
    rfl

theorem c5_witness :
    (prepare_features_fallback h0 false [exRecord]).length = 1 ∧
    (prepare_features_fallback h0 false [exRecord]).all
      (fun row => row.length == 102) = true :=
  c5_fallback_features_amended.1 h0 [exRecord] (by decide) (by decide) (by decide)

theorem findSome?_validate {α : Type} (l : List α) (f : α → Option PyObj)
    (hf : ∀ a m, f a = some m → validate_model m = true) :
    ∀ m, l.findSome? f = some m → validate_model m = true := by
  induction l with
  | nil => intro m hm; simp [List.findSome?] at hm
  | cons a l ih =>
    intro m hm
    rw [List.findSome?_cons] at hm
    cases hfa : f a with
    | some b =>
      rw [hfa] at hm
      exact hf a m (by rw [hfa]; exact hm)
    | none =>
      rw [hfa] at hm
      exact ih m hm

theorem extract_model_validated (lo : PyObj) (m : PyObj)
    (hex : extract_model lo = some m) : validate_model m = true := by
  by_cases hv : validate_model lo = true
  · unfold extract_model at hex
    rw [if_pos hv] at hex
    cases hex
    exact hv
  · cases lo with
    | leaf o =>
      simp only [extract_model] at hex
      rw [if_neg hv] at hex
      cases hex
    | dict entries =>
      simp only [extract_model] at hex
      rw [if_neg hv] at hex
      split at hex
      · rename_i m2 hprobe
        have hval : validate_model m2 = true := by
          refine findSome?_validate model_keys _ ?_ m2 hprobe
          intro k m3 hk
          cases hlk : lookupD entries k with
          | some v =>
            simp only [hlk] at hk
            split at hk
            · cases hk; assumption
            · cases hk
          | none =>
            simp only [hlk] at hk
            cases hk
        cases hex
        exact hval
      · rename_i hprobe
        refine findSome?_validate entries _ ?_ m hex
        intro e m3 he
        split at he
        · cases he; assumption
        · cases he
    | seq items =>
      simp only [extract_model] at hex
      rw [if_neg hv] at hex
      simpa using List.find?_some hex

theorem validate_leaf_shape (m : PyObj) (hv : validate_model m = true) :
    ∃ o, m = PyObj.leaf o := by
  cases m with
  | leaf o => exact ⟨o, rfl⟩
  | dict es => simp [validate_model] at hv
  | seq l => simp [validate_model] at hv

/-- Claim C6: the model loader never raises to its caller — a missing
artifact, a raising deserialization, and a failed extraction each yield
the no-model state (model none, model_loaded false), which is exactly
the state in which every subsequent prediction takes the rule-based
path; the loaded flags are set exactly when extraction (which implies
validation) succeeds. -/
theorem c6_loader_total_no_model_state :
    (∀ deps : Bool, predictor_init deps none = noModelState deps) ∧
    (∀ (deps : Bool) (msg : String),
      predictor_init deps (some (.error msg)) = noModelState deps) ∧
    (∀ (deps : Bool) (lo : PyObj), extract_model lo = none →
      predictor_init deps (some (.ok lo)) = noModelState deps) ∧
    (∀ (deps : Bool) (lo : PyObj),
      (predictor_init deps (some (.ok lo))).model_loaded = (extract_model lo).isSome) ∧
    (∀ (deps : Bool) (h : String → Nat) (eD eS eF : Bool) (r : Record)
        (rs : List Record),
      predict_single (noModelState deps) h eD eS eF r = fallback_prediction r ∧
      predict_batch (noModelState deps) h eD eS eF rs = rs.map fallback_prediction) := by
  refine ⟨fun _ => rfl, fun _ _ => rfl, ?_, ?_, fun _ _ _ _ _ _ _ => ⟨rfl, rfl⟩⟩
  · intro deps lo hex
    simp [predictor_init, hex]
  · intro deps lo
    cases hex : extract_model lo with
    | none => simp [predictor_init, hex, noModelState]
    | some m =>
      have hv := extract_model_validated lo m hex
      obtain ⟨o, rfl⟩ := validate_leaf_shape m hv
      simp [predictor_init, hex, hv]

theorem c6_witness :
    predictor_init true (some (.ok (.leaf badLeaf))) = noModelState true ∧
    (predictor_init true (some (.ok bundleObj))).model_loaded =
      (extract_model bundleObj).isSome :=
  ⟨c6_loader_total_no_model_state.2.2.1 true (.leaf badLeaf) rfl,
   c6_loader_total_no_model_state.2.2.2.1 true bundleObj⟩

theorem validate_model_eq_validity (p : PyObj) : validate_model p = validityPred p := by
  cases p with
  | dict es => rfl
  | seq l => rfl
  | leaf o =>
    cases hp : o.hasPredict with
    | false => simp [validate_model, validityPred, isDictB, hasCallablePredictB, hp]
    | true =>
      cases hc : o.predictCallable with
      | false => simp [validate_model, validityPred, isDictB, hasCallablePredictB, hp, hc]
      | true =>
        simp only [validate_model, validityPred, isDictB, hasCallablePredictB, hp, hc,
          Bool.not_true, Bool.not_false, Bool.false_eq_true, if_false, Bool.and_true,
          Bool.and_self]
        split_ifs <;> rfl

theorem findSome?_filter_eq {α β : Type} (l : List α) (g : α → Bool) (f : α → Option β)
    (hnull : ∀ a ∈ l, g a = false → f a = none) :
    l.findSome? f = (l.filter g).findSome? f := by
  induction l with
  | nil => rfl
  | cons a l ih =>
    have ihl := ih (fun b hb => hnull b (List.mem_cons_of_mem a hb))
    by_cases hg : g a = true
    · rw [List.filter_cons_of_pos hg, List.findSome?_cons, List.findSome?_cons]
      cases hfa : f a with
      | some b => rfl
      | none => exact ihl
    · have hgf : g a = false := by revert hg; cases g a <;> simp
      rw [List.filter_cons_of_neg (by simp [hgf]), List.findSome?_cons,
        hnull a (List.mem_cons_self a l) hgf]
      exact ihl

theorem lookupD_of_nodup (entries : List (String × PyObj))
    (hnd : (entries.map Prod.fst).Nodup) (e : String × PyObj) (he : e ∈ entries) :
    lookupD entries e.1 = some e.2 := by
  induction entries with
  | nil => cases he
  | cons a l ih =>
    rw [List.map_cons, List.nodup_cons] at hnd
    obtain ⟨hna, hndl⟩ := hnd
    rcases List.mem_cons.mp he with rfl | hmem
    · simp [lookupD]
    · have hne : (a.1 == e.1) = false := by
        have : a.1 ≠ e.1 := by
          intro hEq
          exact hna (hEq ▸ List.mem_map_of_mem Prod.fst hmem)
        simp [this]
      have := ih hndl hmem
      simp only [lookupD, List.find?_cons, hne] at this ⊢
      exact this

/-- Claim C7: the validity predicate admits a candidate exactly when it
is not a raw mapping and exposes a callable predict attribute (the
advisory class-name and inheritance inspections never change the
admission decision), and extraction is the deterministic procedure the
specification words: a bare valid object is returned, else the five
conventional keys are probed in fixed order for the first valid value,
else the remaining mapping values are scanned in insertion order, else
sequence elements are scanned by increasing index, else the result is
None.  For mappings the comparison assumes distinct keys, which Python
dicts guarantee. -/
theorem c7_extraction_deterministic :
    (∀ p : PyObj, validate_model p = validityPred p) ∧
    (∀ p : PyObj, isDictB p = false → extract_model p = extractSpec p) ∧
    (∀ entries : List (String × PyObj), (entries.map Prod.fst).Nodup →
      extract_model (.dict entries) = extractSpec (.dict entries)) := by
  refine ⟨validate_model_eq_validity, ?_, ?_⟩
  · intro p hd
    cases p with
    | dict es => simp [isDictB] at hd
    | leaf o =>
      simp only [extract_model, extractSpec, validate_model_eq_validity]
    | seq items =>
      simp only [extract_model, extractSpec, validate_model_eq_validity]
  · intro entries hnd
    simp only [extract_model, extractSpec, validate_model_eq_validity]
    have hdv : validityPred (.dict entries) = false := rfl
    rw [hdv]
    simp only [Bool.false_eq_true, if_false]
    cases hprobe : model_keys.findSome? (fun k =>
        match lookupD entries k with
        | some v => if validityPred v then some v else none
        | none => none) with
    | some m => rfl
    | none =>
      have hinv : ∀ e ∈ entries, model_keys.contains e.1 = true →
          (if validityPred e.2 then some e.2 else none) = none := by
        intro e he hk
        have hmem : e.1 ∈ model_keys := by simpa using hk
        have hfk := List.findSome?_eq_none_iff.mp hprobe e.1 hmem
        rw [lookupD_of_nodup entries hnd e he] at hfk
        exact hfk
      exact findSome?_filter_eq entries
        (fun e => !(model_keys.contains e.1))
        (fun e => if validityPred e.2 then some e.2 else none)
        (fun a ha hga => hinv a ha (by simpa using hga))

theorem c7_witness :
    validate_model (.leaf okLeaf3) = validityPred (.leaf okLeaf3) ∧
    extract_model (.leaf badLeaf) = extractSpec (.leaf badLeaf) ∧
    extract_model bundleObj = extractSpec bundleObj :=
  ⟨c7_extraction_deterministic.1 _,
   c7_extraction_deterministic.2.1 _ rfl,
   c7_extraction_deterministic.2.2 _ (by decide)⟩

theorem map_encode_totalize (cols : List String) (r : Record)
    (le : List (String × PyLeaf)) :
    (le.map (fun p => (p.1, totalizeLeaf p.2))).map (fun p =>
        match findDfCol cols p.1 with
        | some c => encodeCell p.2 (cellStr r c)
        | none => 0) =
      le.map (fun p =>
        match findDfCol cols p.1 with
        | some c => encodeCell p.2 (cellStr r c)
        | none => 0) := by
  rw [List.map_map]
  exact List.map_congr_left (fun p _ => rfl)

theorem prepare_saved_totalize (st : EngineState) (h : String → Nat) (eS eF : Bool)
    (data : List Record) :
    prepare_features_with_saved_components (totalizeState st) h eS eF data =
      prepare_features_with_saved_components st h eS eF data := by
  simp only [prepare_features_with_saved_components]
  rw [show (totalizeState st).label_encoders =
      st.label_encoders.map (fun p => (p.1, totalizeLeaf p.2)) from rfl]
  rw [show (totalizeState st).vectorizer = st.vectorizer from rfl]
  rw [show (st.label_encoders.map (fun p => (p.1, totalizeLeaf p.2))).isEmpty =
      st.label_encoders.isEmpty from by cases st.label_encoders <;> rfl]
  refine if_congr Iff.rfl rfl (if_congr Iff.rfl rfl ?_)
  exact List.map_congr_left (fun r _ => by rw [map_encode_totalize])

theorem prepare_features_totalize (st : EngineState) (h : String → Nat)
    (eD eS eF : Bool) (data : List Record) :
    prepare_features (totalizeState st) h eD eS eF data =
      prepare_features st h eD eS eF data := by
  have hempty : (totalizeState st).label_encoders.isEmpty = st.label_encoders.isEmpty := by
    cases hle : st.label_encoders <;> simp [totalizeState, hle]
  have hvec : (totalizeState st).vectorizer = st.vectorizer := rfl
  unfold prepare_features
  rw [hempty, hvec, prepare_saved_totalize]

/-- Claim C8: with a loaded encoder bundle in use, an unseen categorical
value does not raise — the except handler encodes it with the fixed
default code 0, so the whole pipeline behaves exactly as if every
encoder mapped unseen values to the seen code 0; the rest of the row is
built normally, the prediction completes, and the prepared features
depend only on the bundle (encoders and vectorizer) and the records,
hence are the same on every call with the same record and bundle. -/
theorem c8_unseen_category_default_zero :
    (∀ (l : PyLeaf) (s : String), l.transform s = none → encodeCell l s = 0) ∧
    (∀ (st : EngineState) (h : String → Nat) (eD eS eF : Bool) (r : Record)
        (rs : List Record),
      predict_single (totalizeState st) h eD eS eF r =
        predict_single st h eD eS eF r ∧
      predict_batch (totalizeState st) h eD eS eF rs =
        predict_batch st h eD eS eF rs) ∧
    (∀ (st st2 : EngineState) (h : String → Nat) (eS eF : Bool)
        (data : List Record),
      st.label_encoders = st2.label_encoders →
      st.vectorizer = st2.vectorizer →
      prepare_features_with_saved_components st h eS eF data =
        prepare_features_with_saved_components st2 h eS eF data) := by
  refine ⟨?_, ?_, ?_⟩
  · intro l s hn
    unfold encodeCell
    rw [hn]
    rfl
  · intro st h eD eS eF r rs
    have hm : (totalizeState st).model = st.model := rfl
    have hd : (totalizeState st).deps_available = st.deps_available := rfl
    have hl : (totalizeState st).model_loaded = st.model_loaded := rfl
    constructor
    · unfold predict_single
      rw [hm, hd, hl, prepare_features_totalize]
    · unfold predict_batch
      rw [hm, hd, hl, prepare_features_totalize]
  · intro st st2 h eS eF data hle hvec
    unfold prepare_features_with_saved_components
    rw [hle, hvec]

theorem c8_witness :
    encodeCell encLeaf "Pneumatic" = 0 ∧
    prepare_features_with_saved_components savedState h0 false false rs3 =
      prepare_features_with_saved_components savedState h0 false false rs3 :=
  ⟨c8_unseen_category_default_zero.1 encLeaf "Pneumatic" rfl,
   c8_unseen_category_default_zero.2.2 savedState savedState h0 false false rs3 rfl rfl⟩
